import Mathlib

/-!
Verification development for the GeosysPy raster time-series assembly pipeline.

The definitions below are a shallow embedding of the core of
`geosyspy/geosys.py` (`__get_images_as_dataset`,
`get_satellite_image_time_series`, `get_satellite_coverage_image_references`)
and `geosyspy/services/map_product_service.py` (`get_satellite_coverage`,
payload construction of `get_zipped_tiff`).

Modelling conventions:
* dates are naturals (the pandas datetime64 values, order-isomorphic);
* spatial resolutions, pixel values and coordinates are rationals;
* a masked pixel of `raster.read(masked=True)` is `none`;
* Python exceptions are the error side of `Except`;
* an HTTP response is its status code plus the parsed JSON payload
  (`payload = none` models a body on which `response.json()` raises);
* the byte content of a zipped GeoTIFF archive is modelled as the list of its
  member files, each member already decoded to its raster.
-/

/-- One row of the dataframe returned by
`MapProductService.get_satellite_coverage` (one catalog entry). -/
structure CatalogEntry where
  imageId : String
  date : Nat
  sensor : String
  availableBands : List String
  spatialResolution : ℚ
  seasonFieldId : String
deriving DecidableEq

/-- The sort key of
`df_coverage.sort_values(by=["image.spatialResolution", "image.date"], ascending=[True, True])`:
lexicographic on (spatial resolution, date). -/
def covLE (e1 e2 : CatalogEntry) : Prop :=
  e1.spatialResolution < e2.spatialResolution ∨
    (e1.spatialResolution = e2.spatialResolution ∧ e1.date ≤ e2.date)

instance covLE.instDecRel : DecidableRel covLE := fun a b =>
  inferInstanceAs (Decidable (a.spatialResolution < b.spatialResolution ∨
    (a.spatialResolution = b.spatialResolution ∧ a.date ≤ b.date)))

instance covLE.instTotal : IsTotal CatalogEntry covLE := by
  constructor
  intro a b
  rcases lt_trichotomy a.spatialResolution b.spatialResolution with h | h | h
  · exact Or.inl (Or.inl h)
  · rcases Nat.le_total a.date b.date with h2 | h2
    · exact Or.inl (Or.inr ⟨h, h2⟩)
    · exact Or.inr (Or.inr ⟨h.symm, h2⟩)
  · exact Or.inr (Or.inl h)

instance covLE.instTrans : IsTrans CatalogEntry covLE := by
  constructor
  intro a b c hab hbc
  rcases hab with h1 | ⟨h1, h1d⟩
  · rcases hbc with h2 | ⟨h2, _⟩
    · exact Or.inl (h1.trans h2)
    · exact Or.inl (h2 ▸ h1)
  · rcases hbc with h2 | ⟨h2, h2d⟩
    · exact Or.inl (h1 ▸ h2)
    · exact Or.inr ⟨h1.trans h2, h1d.trans h2d⟩

/-- `df.drop_duplicates(subset="image.date", keep="first")`: keep the first
occurrence of each date, scanning left to right; `seen` is the set of dates
already kept. -/
def dropDuplicatesByDate : List CatalogEntry → List Nat → List CatalogEntry
  | [], _ => []
  | e :: rest, seen =>
    if e.date ∈ seen then dropDuplicatesByDate rest seen
    else e :: dropDuplicatesByDate rest (e.date :: seen)

/-- The coverage-selection fragment of `__get_images_as_dataset`
(geosys.py lines 399-405): stable sort by (spatial resolution asc, date asc),
then deduplicate keeping the first occurrence per date.  `insertionSort` is a
stable sort, as is the pandas multi-key `sort_values` (np.lexsort). -/
def select_coverage (l : List CatalogEntry) : List CatalogEntry :=
  dropDuplicatesByDate (List.insertionSort covLE l) []

/-- The response of the catalog endpoint as seen by
`MapProductService.get_satellite_coverage`: status code plus parsed rows
(`payload = none` models an unparsable body). -/
structure HttpResponse where
  statusCode : Nat
  payload : Option (List CatalogEntry)
deriving DecidableEq

/-- Python exceptions raised along the modelled paths. -/
inductive PyError
  /-- an explicit `raise ValueError(...)` -/
  | valueError
  /-- `raise TypeError(...)` on a collections list with a non-enum element -/
  | typeError
  /-- attribute access on `None` (`df_coverage.empty` when the service returned `None`) -/
  | attributeError
  /-- indexing an empty list (`list_xarr[0]`, `df.iloc[0]`, `indicators[0]`) -/
  | indexError
  /-- `response.json()` on an unparsable body -/
  | jsonDecodeError
  /-- xarray ValueError: `band` coordinate length differs from the data shape -/
  | shapeError
  /-- pandas ValueError: `df_coverage["crs"] = list_crs` with mismatched length -/
  | lengthMismatchError
  /-- `xr.concat([], "time")` -/
  | concatError
deriving DecidableEq

/-- `MapProductService.get_satellite_coverage` (map_product_service.py lines
88-112): on status 200 parse the body and return the dataframe rows; on any
other status only log the code and return `None`. -/
def get_satellite_coverage (resp : HttpResponse) :
    Except PyError (Option (List CatalogEntry)) :=
  if resp.statusCode = 200 then
    match resp.payload with
    | none => .error .jsonDecodeError
    | some rows => .ok (some rows)
  else .ok none

/-- Python truthiness of an optional string argument (`not season_field_id`). -/
def falsy : Option String → Bool
  | none => true
  | some s => s.isEmpty

/-- Payload construction of `MapProductService.get_satellite_coverage` /
`get_zipped_tiff` (map_product_service.py lines 83-86, 130-136): the season
field id takes precedence over the geometry. -/
inductive SeasonFieldPayload
  | byGeometry (geometry : String)
  | byId (id : String)
deriving DecidableEq

/-- `if not season_field_id: {"geometry": polygon} else: {"id": season_field_id}`. -/
def coverage_payload (season_field_id polygon : Option String) : SeasonFieldPayload :=
  if falsy season_field_id then .byGeometry (polygon.getD ("")) else .byId (season_field_id.getD (""))

/-- Exact rational arithmetic written through `mkRat`/`Rat.divInt`, which
evaluate inside the kernel (the library's `Rat.add`, `Rat.mul`, ... are
irreducible); used wherever the embedding computes coordinates or
interpolation weights. -/
def qAdd (a b : ℚ) : ℚ := mkRat (a.num * (b.den : Int) + b.num * (a.den : Int)) (a.den * b.den)

/-- Exact rational negation. -/
def qNeg (a : ℚ) : ℚ := mkRat (-a.num) a.den

/-- Exact rational subtraction. -/
def qSub (a b : ℚ) : ℚ := qAdd a (qNeg b)

/-- Exact rational multiplication. -/
def qMul (a b : ℚ) : ℚ := mkRat (a.num * b.num) (a.den * b.den)

/-- Exact rational division (zero when the divisor is zero, as in the
library). -/
def qDiv (a b : ℚ) : ℚ := Rat.divInt (a.num * (b.den : Int)) ((a.den : Int) * b.num)

/-- The rational 1/2 (the rasterio center offset). -/
def qHalf : ℚ := mkRat 1 2

/-- The rational value of a pixel index. -/
def qOfNat (n : Nat) : ℚ := mkRat (Int.ofNat n) 1

/-- `str.upper()` at the character level (ASCII, which covers every indicator
string the library uses). -/
def pyUpper (s : String) : String :=
  ⟨s.data.map (fun c => if 97 ≤ c.toNat ∧ c.toNat ≤ 122 then Char.ofNat (c.toNat - 32) else c)⟩

/-- `str.lower()` at the character level (ASCII). -/
def pyLower (s : String) : String :=
  ⟨s.data.map (fun c => if 65 ≤ c.toNat ∧ c.toNat ≤ 90 then Char.ofNat (c.toNat + 32) else c)⟩

/-- `str.endswith(suffix)`. -/
def pyEndsWith (s suffix : String) : Bool := decide (suffix.data.IsSuffix s.data)

/-- The six affine-transform coefficients of a GeoTIFF:
`x = a*col + b*row + c`, `y = d*col + e*row + f` (rasterio ordering). -/
structure AffineTransform where
  a : ℚ
  b : ℚ
  c : ℚ
  d : ℚ
  e : ℚ
  f : ℚ
deriving DecidableEq, Inhabited

/-- An in-memory decoded raster: per-band grids of optionally-masked pixels
(`raster.read(masked=True)`; `none` = masked), the affine transform and the
CRS string.  Real rasters are rectangular with at least one band. -/
structure Raster where
  bands : List (List (List (Option ℚ)))
  transform : AffineTransform
  crs : String
deriving DecidableEq, Inhabited

/-- `band1.shape[0]` where `band1 = raster.read()[0]`. -/
def raster_height (r : Raster) : Nat := (r.bands.headD []).length

/-- `band1.shape[1]`. -/
def raster_width (r : Raster) : Nat := ((r.bands.headD []).headD []).length

/-- `get_coordinates_by_pixel` (geosys.py lines 366-380): rasterio
`transform.xy` on the full meshgrid with the default center offset gives
`x = c + a*(col+1/2) + b*(row+1/2)` and `y = f + d*(col+1/2) + e*(row+1/2)`;
the code then keeps the first column of the y matrix and the first row of the
x matrix.  Returns `(y values per row, x values per column)`. -/
def get_coordinates_by_pixel (r : Raster) : List ℚ × List ℚ :=
  ((List.range (raster_height r)).map
      (fun i => qAdd (qAdd r.transform.f (qMul r.transform.d qHalf))
        (qMul r.transform.e (qAdd (qOfNat i) qHalf))),
   (List.range (raster_width r)).map
      (fun j => qAdd (qAdd r.transform.c (qMul r.transform.a (qAdd (qOfNat j) qHalf)))
        (qMul r.transform.b qHalf)))

/-- One member file of the downloaded zip archive, with its decoded raster. -/
structure ZipEntry where
  name : String
  raster : Raster
deriving DecidableEq, Inhabited

/-- `[archive.read(f) for f in archive.namelist() if f.endswith(".tif")]`. -/
def tifsOf (entries : List ZipEntry) : List Raster :=
  (entries.filter (fun z => pyEndsWith z.name (".tif"))).map (fun z => z.raster)

/-- One `xr.DataArray` of the assembly loop: dims (band, y, x), a scalar
`time` coordinate, and the pixel data. -/
structure DataArraySlice where
  band : List String
  y : List ℚ
  x : List ℚ
  time : Nat
  values : List (List (List (Option ℚ)))
deriving DecidableEq, Inhabited

/-- Locate `t` in an ascending coordinate axis: the index `i` of the cell
`[coords[i], coords[i+1]]` containing `t` together with the linear weight of
the right endpoint.  `none` when `t` is outside the axis (scipy
`fill_value=nan`, `bounds_error=False`: no extrapolation). -/
def findCell : List ℚ → ℚ → Option (Nat × ℚ)
  | [], _ => none
  | [c], t => if t = c then some (0, 0) else none
  | c0 :: c1 :: rest, t =>
    if t < c0 then none
    else if t ≤ c1 then some (0, qDiv (qSub t c0) (qSub c1 c0))
    else (findCell (c1 :: rest) t).map (fun p => (p.1 + 1, p.2))

/-- Pixel lookup in a 2-D grid; out-of-range indices give `none`. -/
def getPixel (g : List (List (Option ℚ))) (i j : Nat) : Option ℚ :=
  match g[i]? with
  | some row =>
    match row[j]? with
    | some v => v
    | none => none
  | none => none

/-- Bilinear interpolation of one band grid at target coordinates
`(ty, tx)`, modelling `DataArray.interp(..., method="linear")` (scipy linear
interpolation with NaN fill): the weighted average of the four corners of the
containing cell; `none` when the target is outside the grid or any
contributing corner is masked (NaN propagates through the 0-weight corners as
well, as in IEEE arithmetic). -/
def bilinear (ys xs : List ℚ) (g : List (List (Option ℚ))) (ty tx : ℚ) : Option ℚ :=
  match findCell ys ty, findCell xs tx with
  | some ic, some jc =>
    match getPixel g ic.1 jc.1, getPixel g ic.1 (jc.1 + 1),
          getPixel g (ic.1 + 1) jc.1, getPixel g (ic.1 + 1) (jc.1 + 1) with
    | some v00, some v01, some v10, some v11 =>
      some (qAdd
        (qMul (qSub 1 ic.2) (qAdd (qMul (qSub 1 jc.2) v00) (qMul jc.2 v01)))
        (qMul ic.2 (qAdd (qMul (qSub 1 jc.2) v10) (qMul jc.2 v11))))
    | _, _, _, _ => none
  | _, _ => none

/-- `xarr.interp(x=ref.x, y=ref.y, method="linear")`: every band is resampled
onto the reference coordinate arrays; the slice adopts those coordinates. -/
def interpSlice (ref s : DataArraySlice) : DataArraySlice :=
  { band := s.band, y := ref.y, x := ref.x, time := s.time,
    values := s.values.map
      (fun g => ref.y.map (fun ty => ref.x.map (fun tx => bilinear s.y s.x g ty tx))) }

/-- The DataArray built at geosys.py lines 442-451 for one tif of one record:
band names from the archive metadata, pixel coordinates from the transform,
the record date as scalar time coordinate, masked pixel data verbatim. -/
def mkSlice (bands : List String) (date : Nat) (r : Raster) : DataArraySlice :=
  { band := bands, y := (get_coordinates_by_pixel r).1,
    x := (get_coordinates_by_pixel r).2, time := date, values := r.bands }

/-- Alignment of one coordinate axis by `xr.concat` (default `join="outer"`):
equal indexes are kept as they are; otherwise the union index (sorted
ascending for numeric indexes, as pandas `Index.union`). -/
def unionAllQ : List (List ℚ) → List ℚ
  | [] => []
  | c :: rest =>
    if rest.all (fun v => v = c) then c
    else (List.insertionSort (fun a b : ℚ => a ≤ b) (c :: rest).flatten).dedup

/-- Alignment of the string-valued `band` axis: equal indexes kept, otherwise
the deduplicated union. -/
def unionAllS : List (List String) → List String
  | [] => []
  | c :: rest => if rest.all (fun v => v = c) then c else (c :: rest).flatten.dedup

/-- Exact-match lookup of one value of a slice during reindexing. -/
def valueAt (s : DataArraySlice) (b : String) (ty tx : ℚ) : Option ℚ :=
  match s.band.findIdx? (fun v => v = b), s.y.findIdx? (fun v => v = ty),
        s.x.findIdx? (fun v => v = tx) with
  | some bi, some yi, some xi =>
    match s.values[bi]? with
    | some g => getPixel g yi xi
    | none => none
  | _, _, _ => none

/-- Reindexing of one slice onto the aligned coordinates (`xr.concat` outer
join): the identity when the indexes already agree, otherwise exact-match
lookup with `none` (NaN) at coordinates the slice does not have. -/
def reindexVals (bU : List String) (yU xU : List ℚ) (s : DataArraySlice) :
    List (List (List (Option ℚ))) :=
  if s.band = bU ∧ s.y = yU ∧ s.x = xU then s.values
  else bU.map (fun b => yU.map (fun ty => xU.map (fun tx => valueAt s b ty tx)))

/-- The DataArray produced by `xr.concat(list_xarr, "time")` before the
per-time metadata is attached. -/
structure PreStack where
  band : List String
  y : List ℚ
  x : List ℚ
  time : List Nat
  values : List (List (List (List (Option ℚ))))
deriving DecidableEq

/-- `xr.concat(list_xarr, "time")`: raises on an empty list; otherwise aligns
the band/y/x axes of all slices (outer join) and stacks the reindexed data
along a new time axis whose coordinate collects the scalar time of each
slice, in list order. -/
def concat_slices : List DataArraySlice → Except PyError PreStack
  | [] => .error .concatError
  | s :: ss =>
    let bU := unionAllS (s.band :: ss.map (fun v => v.band))
    let yU := unionAllQ (s.y :: ss.map (fun v => v.y))
    let xU := unionAllQ (s.x :: ss.map (fun v => v.x))
    .ok { band := bU, y := yU, x := xU,
          time := (s :: ss).map (fun v => v.time),
          values := (s :: ss).map (reindexVals bU yU xU) }

/-- The per-image-id value stored in `dict_archives` (geosys.py lines
409-422). -/
structure ArchiveData where
  byteArchive : List ZipEntry
  bands : List String
  date : Nat
  sensor : String
deriving DecidableEq

/-- `bands = [indicator] if indicator.upper() != "REFLECTANCE" else row["image.availableBands"]`. -/
def bandsFor (indicator : String) (e : CatalogEntry) : List String :=
  if pyUpper indicator ≠ ("REFLECTANCE") then [indicator] else e.availableBands

/-- The `dict_archives` value built for one coverage row; the zip bytes come
from `get_zipped_tiff(row["seasonField.id"], polygon, row["image.id"],
indicator).content`, modelled as a function of the image id (the other
arguments are fixed for the invocation). -/
def mkArchiveData (indicator : String) (fetch : String → List ZipEntry)
    (e : CatalogEntry) : ArchiveData :=
  { byteArchive := fetch e.imageId, bands := bandsFor indicator e,
    date := e.date, sensor := e.sensor }

/-- Python dict insertion: an existing key keeps its position and gets the
new value, a new key is appended. -/
def dictUpsert {κ β : Type} [DecidableEq κ] (k : κ) (v : β) :
    List (κ × β) → List (κ × β)
  | [] => [(k, v)]
  | (k1, v1) :: rest =>
    if k1 = k then (k1, v) :: rest else (k1, v1) :: dictUpsert k v rest

/-- The `dict_archives` loop (geosys.py lines 409-422): one dict entry per
coverage row, keyed by `image.id`. -/
def buildDict (indicator : String) (fetch : String → List ZipEntry)
    (rows : List CatalogEntry) : List (String × ArchiveData) :=
  rows.foldl (fun acc e => dictUpsert e.imageId (mkArchiveData indicator fetch e) acc) []

/-- Processing of one tif of one archive (geosys.py lines 438-473): compute
the pixel coordinates (raises IndexError when the raster has no band), build
the DataArray (xarray raises when the band coordinate length differs from the
data shape), adopt it verbatim when the image id is the reference one,
otherwise interpolate it onto the coordinates of `list_xarr[0]` (IndexError
when that list is still empty); append the slice and the raster's CRS. -/
def process_tif (first_img_id imgId : String) (data : ArchiveData)
    (acc : List DataArraySlice × List String) (r : Raster) :
    Except PyError (List DataArraySlice × List String) :=
  if r.bands.isEmpty then .error .indexError
  else if data.bands.length ≠ r.bands.length then .error .shapeError
  else
    let xarr := mkSlice data.bands data.date r
    if imgId = first_img_id then .ok (acc.1 ++ [xarr], acc.2 ++ [r.crs])
    else
      match acc.1.head? with
      | none => .error .indexError
      | some ref => .ok (acc.1 ++ [interpSlice ref xarr], acc.2 ++ [r.crs])

/-- The inner loop over the tif files of one archive. -/
def process_tifs (first_img_id imgId : String) (data : ArchiveData) :
    List Raster → (List DataArraySlice × List String) →
    Except PyError (List DataArraySlice × List String)
  | [], acc => .ok acc
  | r :: rs, acc =>
    match process_tif first_img_id imgId data acc r with
    | .error e => .error e
    | .ok acc2 => process_tifs first_img_id imgId data rs acc2

/-- The outer loop over `dict_archives.items()` (geosys.py lines 431-473). -/
def process_archives (first_img_id : String) :
    List (String × ArchiveData) → (List DataArraySlice × List String) →
    Except PyError (List DataArraySlice × List String)
  | [], acc => .ok acc
  | (imgId, data) :: items, acc =>
    match process_tifs first_img_id imgId data (tifsOf data.byteArchive) acc with
    | .error e => .error e
    | .ok acc2 => process_archives first_img_id items acc2

/-- The assembled `xr.Dataset`: the single data variable (named after the
lower-cased indicator) with its dims and coords, plus the per-time auxiliary
coordinates attached from the coverage dataframe columns. -/
structure TimeStack where
  varName : String
  band : List String
  y : List ℚ
  x : List ℚ
  time : List Nat
  values : List (List (List (List (Option ℚ))))
  imageIds : List String
  sensors : List String
  resolutions : List ℚ
  crs : List String
deriving DecidableEq

/-- `xr.Dataset()`, the sentinel returned on empty coverage. -/
def emptyDataset : TimeStack :=
  { varName := "", band := [], y := [], x := [], time := [], values := [],
    imageIds := [], sensors := [], resolutions := [], crs := [] }

/-- `Geosys.__get_images_as_dataset` (geosys.py lines 340-502): query the
catalog (an `AttributeError` surfaces when the service returned `None`),
return the sentinel on empty coverage, otherwise sort and deduplicate the
rows, download every archive into `dict_archives`, extract and process every
tif, assign the collected CRS list as a dataframe column (pandas raises a
ValueError when its length differs from the row count), concatenate along
time and attach the per-time metadata.  The slice and CRS lists grow in
lockstep, so xarray's own length check on `assign_coords` is subsumed by the
pandas one. -/
def get_images_as_dataset (resp : HttpResponse) (fetch : String → List ZipEntry)
    (indicator : String) : Except PyError TimeStack :=
  match get_satellite_coverage resp with
  | .error e => .error e
  | .ok none => .error .attributeError
  | .ok (some entries) =>
    if entries.isEmpty then .ok emptyDataset
    else
      let sel := select_coverage entries
      let dict := buildDict indicator fetch sel
      match sel.head? with
      | none => .error .indexError
      | some e0 =>
        match process_archives e0.imageId dict ([], []) with
        | .error e => .error e
        | .ok (slices, crsList) =>
          if crsList.length = sel.length then
            match concat_slices slices with
            | .error e => .error e
            | .ok pre =>
              .ok { varName := pyLower indicator, band := pre.band, y := pre.y,
                    x := pre.x, time := pre.time, values := pre.values,
                    imageIds := sel.map (fun e => e.imageId),
                    sensors := sel.map (fun e => e.sensor),
                    resolutions := sel.map (fun e => e.spatialResolution),
                    crs := crsList }
          else .error .lengthMismatchError

/-- `utils/constants.py` `SatelliteImageryCollection`. -/
inductive SatelliteImageryCollection
  | MODIS
  | SENTINEL_2
  | LANDSAT_8
  | LANDSAT_9
deriving DecidableEq

/-- `LR_SATELLITE_COLLECTION = [SatelliteImageryCollection.MODIS]`. -/
def LR_SATELLITE_COLLECTION : List SatelliteImageryCollection := [.MODIS]

/-- `MR_SATELLITE_COLLECTION = [LANDSAT_8, LANDSAT_9, SENTINEL_2]`. -/
def MR_SATELLITE_COLLECTION : List SatelliteImageryCollection :=
  [.LANDSAT_8, .LANDSAT_9, .SENTINEL_2]

/-- One element of the Python `collections` list: either a
`SatelliteImageryCollection` enum member or any other object (the
`isinstance` check distinguishes them). -/
inductive CollectionsItem
  | valid (c : SatelliteImageryCollection)
  | invalid
deriving DecidableEq

/-- Checks `isinstance(elem, SatelliteImageryCollection)`. -/
def CollectionsItem.isCollection : CollectionsItem → Bool
  | .valid _ => true
  | .invalid => false

/-- The enum member of a valid element. -/
def CollectionsItem.toCollection : CollectionsItem → Option SatelliteImageryCollection
  | .valid c => some c
  | .invalid => none

/-- The possible return values of `get_satellite_image_time_series`. -/
inductive TsValue
  /-- the xarray dataset of `__get_images_as_dataset` -/
  | dataset (d : TimeStack)
  /-- the dataframe of `VegetationTimeSeriesService.get_time_series_by_pixel` -/
  | pixelTimeSeries
  /-- the implicit Python `None` of the fall-through branch -/
  | pyNone
deriving DecidableEq

/-- `Geosys.get_satellite_image_time_series` (geosys.py lines 165-231).
Beyond the response, download function and indicator list, the model takes
the `MasterDataManagementService.check_season_field_exists` oracle used on
the low-resolution path. -/
def get_satellite_image_time_series (season_field_id polygon : Option String)
    (collections : Option (List CollectionsItem)) (indicators : List String)
    (resp : HttpResponse) (fetch : String → List ZipEntry)
    (check_season_field_exists : String → Bool) : Except PyError TsValue :=
  if falsy season_field_id && falsy polygon then .error .valueError
  else if (collections.getD []).isEmpty then
    match indicators with
    | [] => .error .indexError
    | ind :: _ => (get_images_as_dataset resp fetch ind).map TsValue.dataset
  else
    let l := collections.getD []
    if l.all CollectionsItem.isCollection then
      let cs := l.filterMap CollectionsItem.toCollection
      if cs.all (fun c => c ∈ LR_SATELLITE_COLLECTION) then
        if falsy season_field_id then
          match indicators with
          | [] => .error .indexError
          | _ :: _ => .ok .pixelTimeSeries
        else if !check_season_field_exists (season_field_id.getD ("")) then
          .error .valueError
        else
          match indicators with
          | [] => .error .indexError
          | _ :: _ => .ok .pixelTimeSeries
      else if cs.all (fun c => c ∈ MR_SATELLITE_COLLECTION) then
        match indicators with
        | [] => .error .indexError
        | ind :: _ => (get_images_as_dataset resp fetch ind).map TsValue.dataset
      else .ok .pyNone
    else .error .typeError

/-- `image_reference.ImageReference`. -/
structure ImageReference where
  image_id : String
  image_date : Nat
  image_sensor : String
  season_field_id : String
deriving DecidableEq

/-- `Geosys.get_satellite_coverage_image_references` (geosys.py lines
239-294): validate the region inputs, query the coverage service, and when
the dataframe is not `None` build the references dict keyed by
`(image.date, image.sensor)`; a `None` dataframe yields `(None, {})` with no
error. -/
def get_satellite_coverage_image_references (season_field_id polygon : Option String)
    (resp : HttpResponse) :
    Except PyError (Option (List CatalogEntry) × List ((Nat × String) × ImageReference)) :=
  if falsy season_field_id && falsy polygon then .error .valueError
  else
    match get_satellite_coverage resp with
    | .error e => .error e
    | .ok none => .ok (none, [])
    | .ok (some rows) =>
      .ok (some rows,
        rows.foldl
          (fun acc row =>
            dictUpsert (row.date, row.sensor)
              { image_id := row.imageId, image_date := row.date,
                image_sensor := row.sensor, season_field_id := row.seasonFieldId }
              acc)
          [])

/-- A later date at a finer resolution than an earlier date (counterexample
input for the time-ordering claim). -/
def exC2Late : CatalogEntry :=
  { imageId := "IMG-LATE", date := 2, sensor := "SENTINEL_2",
    availableBands := [("B1")], spatialResolution := 10, seasonFieldId := "sf" }

def exC2Early : CatalogEntry :=
  { imageId := "IMG-EARLY", date := 1, sensor := "LANDSAT_8",
    availableBands := [("B1")], spatialResolution := 20, seasonFieldId := "sf" }

def exC2Transform : AffineTransform := { a := 1, b := 0, c := 0, d := 0, e := 1, f := 0 }

def exC2Raster1 : Raster :=
  { bands := [[[some 1, some 2], [some 3, some 4]]], transform := exC2Transform,
    crs := "EPSG:32630" }

def exC2Raster2 : Raster :=
  { bands := [[[some 5, some 6], [some 7, some 8]]], transform := exC2Transform,
    crs := "EPSG:32630" }

def exC2Fetch : String → List ZipEntry := fun s =>
  if s = "IMG-LATE" then [⟨"a.tif", exC2Raster1⟩]
  else if s = "IMG-EARLY" then [⟨"b.tif", exC2Raster2⟩] else []

/-- The explicit normal form of a successful assembly in which every
deduplicated record contributed exactly one tif: the reference slice is the
first selected record's raster taken verbatim, every further slice is its
record's raster interpolated onto the reference coordinates, and the
concatenation aligns the axes and stacks the (re)indexed values with the
per-record metadata attached. -/
def assembledStack (indicator : String) (fetch : String → List ZipEntry) :
    List CatalogEntry → TimeStack
  | [] => emptyDataset
  | e0 :: rest =>
    let tifOf := fun (e : CatalogEntry) => (tifsOf (fetch e.imageId)).headD default
    let s0 := mkSlice (bandsFor indicator e0) e0.date (tifOf e0)
    let slices := s0 :: rest.map
      (fun e => interpSlice s0 (mkSlice (bandsFor indicator e) e.date (tifOf e)))
    let bU := unionAllS (slices.map (fun v => v.band))
    let yU := unionAllQ (slices.map (fun v => v.y))
    let xU := unionAllQ (slices.map (fun v => v.x))
    { varName := pyLower indicator, band := bU, y := yU, x := xU,
      time := slices.map (fun v => v.time),
      values := slices.map (reindexVals bU yU xU),
      imageIds := (e0 :: rest).map (fun e => e.imageId),
      sensors := (e0 :: rest).map (fun e => e.sensor),
      resolutions := (e0 :: rest).map (fun e => e.spatialResolution),
      crs := (e0 :: rest).map (fun e => (tifOf e).crs) }

/-- The per-archive tif counts of the downloaded archives, in dict order. -/
def tifCounts (indicator : String) (fetch : String → List ZipEntry)
    (sel : List CatalogEntry) : List Nat :=
  (buildDict indicator fetch sel).map (fun it => (tifsOf it.2.byteArchive).length)

/-- Counterexample input for the grid-alignment claim: the reference
record's archive contains two tif files on different grids. -/
def exC1Ref : CatalogEntry :=
  { imageId := "I-REF", date := 1, sensor := "SENTINEL_2",
    availableBands := [("B1")], spatialResolution := 10, seasonFieldId := "sf" }

def exC1Other : CatalogEntry :=
  { imageId := "I-OTHER", date := 2, sensor := "LANDSAT_8",
    availableBands := [("B1")], spatialResolution := 20, seasonFieldId := "sf" }

def exC1RasterA : Raster :=
  { bands := [[[some 1, some 2], [some 3, some 4]]],
    transform := { a := 1, b := 0, c := 0, d := 0, e := 1, f := 0 }, crs := "EPSG:1" }

def exC1RasterB : Raster :=
  { bands := [[[some 5, some 6], [some 7, some 8]]],
    transform := { a := 1, b := 0, c := 10, d := 0, e := 1, f := 0 }, crs := "EPSG:2" }

def exC1Fetch : String → List ZipEntry := fun s =>
  if s = "I-REF" then [⟨"a.tif", exC1RasterA⟩, ⟨"b.tif", exC1RasterB⟩]
  else if s = "I-OTHER" then [⟨"readme.txt", exC1RasterA⟩] else []

/-- Concrete input for the accidental count-coincidence of the crs/time
positional matching: the first record's archive holds two tifs, the second
record's archive holds none, so two slices meet two dataframe rows. -/
def exC10First : CatalogEntry :=
  { imageId := "I1", date := 1, sensor := "SENTINEL_2",
    availableBands := [("B1")], spatialResolution := 10, seasonFieldId := "sf" }

def exC10Second : CatalogEntry :=
  { imageId := "I2", date := 2, sensor := "LANDSAT_8",
    availableBands := [("B1")], spatialResolution := 20, seasonFieldId := "sf" }

def exC10RasterA : Raster :=
  { bands := [[[some 1, some 2], [some 3, some 4]]],
    transform := { a := 1, b := 0, c := 0, d := 0, e := 1, f := 0 }, crs := "EPSG:A" }

def exC10RasterB : Raster :=
  { bands := [[[some 5, some 6], [some 7, some 8]]],
    transform := { a := 1, b := 0, c := 0, d := 0, e := 1, f := 0 }, crs := "EPSG:B" }

def exC10Fetch : String → List ZipEntry := fun s =>
  if s = "I1" then [⟨"a.tif", exC10RasterA⟩, ⟨"b.tif", exC10RasterB⟩] else []


deriving instance DecidableEq for Except

/-- C4: a catalog query that matches zero records (status 200, empty result
list) makes `get_satellite_coverage` return an empty dataframe without
raising, and `__get_images_as_dataset` then returns the empty sentinel
`xr.Dataset()` without raising; the empty result is distinguishable from the
`None` that a non-success status produces. -/
theorem empty_coverage_law :
    get_satellite_coverage ⟨200, some []⟩ = .ok (some []) ∧
    (∀ (fetch : String → List ZipEntry) (indicator : String),
      get_images_as_dataset ⟨200, some []⟩ fetch indicator = .ok emptyDataset) ∧
    (∀ payload, get_satellite_coverage ⟨500, payload⟩ = .ok none) ∧
    some ([] : List CatalogEntry) ≠ none := by
  refine ⟨rfl, fun fetch indicator => rfl, fun payload => rfl, by decide⟩

/-- Closed instance of `empty_coverage_law`. -/
theorem empty_coverage_law_witness :
    get_images_as_dataset ⟨200, some []⟩ (fun _ => []) ("NDVI") = .ok emptyDataset :=
  empty_coverage_law.2.1 (fun _ => []) ("NDVI")

/-- C9: the assembly is deterministic — two runs of
`__get_images_as_dataset` on the same coverage response, the same download
responses and the same indicator produce identical datasets (the pipeline is
a pure function of these inputs and holds no other state). -/
theorem assemble_deterministic (resp1 resp2 : HttpResponse)
    (fetch1 fetch2 : String → List ZipEntry) (ind1 ind2 : String)
    (hresp : resp1 = resp2) (hfetch : ∀ s, fetch1 s = fetch2 s) (hind : ind1 = ind2) :
    get_images_as_dataset resp1 fetch1 ind1 = get_images_as_dataset resp2 fetch2 ind2 := by
  subst hresp hind
  rw [funext hfetch]

/-- Closed instance of `assemble_deterministic`. -/
theorem assemble_deterministic_witness :
    get_images_as_dataset ⟨200, some []⟩ (fun _ => []) ("NDVI") =
      get_images_as_dataset ⟨200, some []⟩ (fun _ => []) ("NDVI") :=
  assemble_deterministic _ _ _ _ _ _ rfl (fun _ => rfl) rfl

/-- C6 counterexample: on a non-success catalog status no exception is
propagated — `get_satellite_coverage` returns `None` and
`get_satellite_coverage_image_references` completes normally with
`(None, {})`, refuting the claim that every non-success status surfaces an
`UpstreamUnavailable` failure to the caller. -/
theorem upstream_error_counterexample :
    get_satellite_coverage ⟨500, none⟩ = .ok none ∧
    get_satellite_coverage_image_references (some ("sf-id")) none ⟨500, none⟩ =
      .ok (none, []) := ⟨rfl, rfl⟩

/-- C6 amended: on a non-success status `get_satellite_coverage` logs and
returns `None` (no exception); `get_satellite_coverage_image_references`
then returns `(None, {})` with no error, while `__get_images_as_dataset`
fails with an incidental `AttributeError` on the `None` dataframe; a 200
response with an unparsable body raises a decode error inside
`response.json()` that does propagate. -/
theorem coverage_non_success_behavior (resp : HttpResponse)
    (h : resp.statusCode ≠ 200) :
    get_satellite_coverage resp = .ok none ∧
    (∀ sfid polygon, falsy sfid = false →
      get_satellite_coverage_image_references sfid polygon resp = .ok (none, [])) ∧
    (∀ (fetch : String → List ZipEntry) indicator,
      get_images_as_dataset resp fetch indicator = .error .attributeError) ∧
    get_satellite_coverage ⟨200, none⟩ = .error .jsonDecodeError := by
  have hcov : get_satellite_coverage resp = .ok none := by
    simp [get_satellite_coverage, h]
  refine ⟨hcov, ?_, ?_, rfl⟩
  · intro sfid polygon hs
    simp [get_satellite_coverage_image_references, hs, hcov]
  · intro fetch indicator
    simp [get_images_as_dataset, hcov]

/-- Closed instance of `coverage_non_success_behavior`. -/
theorem coverage_non_success_behavior_witness :
    (500 : Nat) ≠ 200 ∧
    get_satellite_coverage ⟨500, some []⟩ = .ok none ∧
    get_images_as_dataset ⟨500, some []⟩ (fun _ => []) ("NDVI") = .error .attributeError :=
  ⟨by decide,
   (coverage_non_success_behavior ⟨500, some []⟩ (by decide)).1,
   (coverage_non_success_behavior ⟨500, some []⟩ (by decide)).2.2.1 (fun _ => []) ("NDVI")⟩

/-- C7 counterexample: an empty `collections` list does not fail with an
invalid-argument error — the call proceeds to the dataset path (querying with
no sensor filter) and completes normally. -/
theorem collections_empty_counterexample :
    get_satellite_image_time_series none (some ("POLYGON((0 0))")) (some []) [("NDVI")]
      ⟨200, some []⟩ (fun _ => []) (fun _ => true) = .ok (.dataset emptyDataset) := rfl

/-- C7 amended: an empty (or `None`) `collections` argument proceeds to the
dataset path with no sensor filter; a list containing an element that is not
a `SatelliteImageryCollection` raises `TypeError`; a non-empty list of valid
collections that is neither all-low-resolution nor all-medium-resolution
(e.g. MODIS mixed with SENTINEL_2) returns Python `None` with no error. -/
theorem collections_validation_behavior (sfid polygon : Option String)
    (indicators : List String) (resp : HttpResponse)
    (fetch : String → List ZipEntry) (chk : String → Bool)
    (hp : falsy polygon = false) :
    (∀ ind rest, indicators = ind :: rest →
      get_satellite_image_time_series sfid polygon (some []) indicators resp fetch chk =
        (get_images_as_dataset resp fetch ind).map TsValue.dataset) ∧
    (∀ l : List CollectionsItem, l.all CollectionsItem.isCollection = false →
      get_satellite_image_time_series sfid polygon (some l) indicators resp fetch chk =
        .error .typeError) ∧
    get_satellite_image_time_series sfid polygon
        (some [.valid .MODIS, .valid .SENTINEL_2]) indicators resp fetch chk =
      .ok .pyNone := by
  have hfp : (falsy sfid && falsy polygon) = false := by
    simp [hp]
  refine ⟨?_, ?_, ?_⟩
  · intro ind rest hind
    subst hind
    simp [get_satellite_image_time_series, hfp]
  · intro l hl
    have hne : l.isEmpty = false := by
      cases l with
      | nil => simp [List.all] at hl
      | cons a as => rfl
    simp [get_satellite_image_time_series, hfp, hne, hl]
  · simp [get_satellite_image_time_series, hfp, List.all,
      CollectionsItem.isCollection, CollectionsItem.toCollection,
      LR_SATELLITE_COLLECTION, MR_SATELLITE_COLLECTION, List.filterMap]

/-- Closed instance of `collections_validation_behavior`. -/
theorem collections_validation_behavior_witness :
    falsy (some ("POLYGON((0 0))")) = false ∧
    get_satellite_image_time_series none (some ("POLYGON((0 0))"))
        (some [.invalid]) [("NDVI")] ⟨200, some []⟩ (fun _ => []) (fun _ => true) =
      .error .typeError :=
  ⟨by decide,
   (collections_validation_behavior none (some ("POLYGON((0 0))")) [("NDVI")]
      ⟨200, some []⟩ (fun _ => []) (fun _ => true) (by decide)).2.1 [.invalid] (by decide)⟩

/-- C8 counterexample: supplying BOTH a polygon and a season-field id does
not fail — the call proceeds to the catalog and completes normally, refuting
the claim that the two region inputs are mutually exclusive. -/
theorem both_region_inputs_counterexample :
    get_satellite_image_time_series (some ("sfid-1")) (some ("POLYGON((0 0))"))
        (some [.valid .SENTINEL_2, .valid .LANDSAT_8]) [("NDVI")]
        ⟨200, some []⟩ (fun _ => []) (fun _ => true) = .ok (.dataset emptyDataset) := by
  decide

/-- C8 amended: only when NEITHER region input is supplied does the call
fail (a `ValueError`, raised before the catalog is contacted — the result
does not depend on the response); when the season-field id is supplied it
takes precedence over the polygon in the catalog payload, and a call with
both inputs proceeds to the dataset path. -/
theorem region_inputs_validation (sfid polygon : Option String)
    (collections : Option (List CollectionsItem)) (indicators : List String)
    (resp : HttpResponse) (fetch : String → List ZipEntry) (chk : String → Bool)
    (hs : falsy sfid = true) (hp : falsy polygon = true) :
    get_satellite_image_time_series sfid polygon collections indicators resp fetch chk =
      .error .valueError ∧
    get_satellite_coverage_image_references sfid polygon resp = .error .valueError ∧
    (∀ sfid2 : Option String, falsy sfid2 = false →
      coverage_payload sfid2 polygon = .byId (sfid2.getD (""))) ∧
    (∀ (sfid2 polygon2 : Option String) ind rest, falsy sfid2 = false →
      falsy polygon2 = false →
      get_satellite_image_time_series sfid2 polygon2 (some [.valid .SENTINEL_2])
          (ind :: rest) resp fetch chk =
        (get_images_as_dataset resp fetch ind).map TsValue.dataset) := by
  refine ⟨?_, ?_, ?_, ?_⟩
  · simp [get_satellite_image_time_series, hs, hp]
  · simp [get_satellite_coverage_image_references, hs, hp]
  · intro sfid2 h2
    simp [coverage_payload, h2]
  · intro sfid2 polygon2 ind rest h2 h3
    simp [get_satellite_image_time_series, h2, h3, List.all,
      CollectionsItem.isCollection, CollectionsItem.toCollection,
      LR_SATELLITE_COLLECTION, MR_SATELLITE_COLLECTION, List.filterMap]

/-- Closed instance of `region_inputs_validation`. -/
theorem region_inputs_validation_witness :
    falsy (none : Option String) = true ∧
    get_satellite_image_time_series none none none [("NDVI")]
        ⟨200, some []⟩ (fun _ => []) (fun _ => true) = .error .valueError :=
  ⟨rfl,
   (region_inputs_validation none none none [("NDVI")] ⟨200, some []⟩
      (fun _ => []) (fun _ => true) rfl rfl).1⟩

lemma dropDup_filter_mem (d : Nat) :
    ∀ (xs : List CatalogEntry) (seen : List Nat), d ∈ seen →
      (dropDuplicatesByDate xs seen).filter (fun e => e.date = d) = [] := by
  intro xs
  induction xs with
  | nil => intro seen h; rfl
  | cons e rest ih =>
    intro seen h
    by_cases hm : e.date ∈ seen
    · simp only [dropDuplicatesByDate, if_pos hm]
      exact ih seen h
    · have hne : e.date ≠ d := fun hc => hm (hc ▸ h)
      simp only [dropDuplicatesByDate, if_neg hm, List.filter_cons]
      rw [if_neg (by simp [hne])]
      exact ih (e.date :: seen) (List.mem_cons_of_mem _ h)

lemma dropDup_filter_not_mem (d : Nat) :
    ∀ (xs : List CatalogEntry) (seen : List Nat), d ∉ seen →
      (dropDuplicatesByDate xs seen).filter (fun e => e.date = d) =
        (xs.filter (fun e => e.date = d)).take 1 := by
  intro xs
  induction xs with
  | nil => intro seen h; rfl
  | cons e rest ih =>
    intro seen h
    by_cases hm : e.date ∈ seen
    · have hne : e.date ≠ d := fun hc => h (hc ▸ hm)
      simp only [dropDuplicatesByDate, if_pos hm, List.filter_cons]
      rw [if_neg (by simp [hne]), ih seen h]
    · by_cases hd : e.date = d
      · simp only [dropDuplicatesByDate, if_neg hm, List.filter_cons]
        rw [if_pos (by simp [hd]), if_pos (by simp [hd])]
        have : d ∈ e.date :: seen := by simp [hd]
        rw [dropDup_filter_mem d rest (e.date :: seen) this]
        simp
      · simp only [dropDuplicatesByDate, if_neg hm, List.filter_cons]
        rw [if_neg (by simp [hd]), if_neg (by simp [hd])]
        exact ih (e.date :: seen) (by simp [h, Ne.symm hd, hd])

/-- C3: whenever the catalog result contains at least two records for the
same date, `select_coverage` (the inline sort-and-drop-duplicates fragment)
keeps exactly one record for that date, and it is one of the input records
with minimal spatial resolution among that date's records. -/
theorem select_coverage_dedup_finest (l : List CatalogEntry) (d : Nat)
    (h : 2 ≤ (l.filter (fun e => e.date = d)).length) :
    ∃ e, (select_coverage l).filter (fun e2 => e2.date = d) = [e] ∧
      e ∈ l ∧ e.date = d ∧
      ∀ e2 ∈ l, e2.date = d → e.spatialResolution ≤ e2.spatialResolution := by
  classical
  set s := List.insertionSort covLE l with hs
  have hperm : s.Perm l := List.perm_insertionSort covLE l
  have hsort : List.Sorted covLE s := List.sorted_insertionSort covLE l
  have hfperm : (s.filter (fun e => e.date = d)).Perm (l.filter (fun e => e.date = d)) :=
    hperm.filter _
  have hflen : 2 ≤ (s.filter (fun e => e.date = d)).length := by
    rw [hfperm.length_eq]; exact h
  obtain ⟨a, t, hat⟩ : ∃ a t, s.filter (fun e => e.date = d) = a :: t := by
    cases hft : s.filter (fun e => e.date = d) with
    | nil => rw [hft] at hflen; simp at hflen
    | cons a t => exact ⟨a, t, rfl⟩
  have hsel : (select_coverage l).filter (fun e2 => e2.date = d) = [a] := by
    unfold select_coverage
    rw [← hs, dropDup_filter_not_mem d s [] (by simp), hat]
    rfl
  have hmemf : a ∈ s.filter (fun e => e.date = d) := by
    rw [hat]; exact List.mem_cons_self a t
  have hmem1 : a ∈ s := (List.mem_filter.mp hmemf).1
  have hmem2 : a.date = d := by simpa using (List.mem_filter.mp hmemf).2
  have hpf : (s.filter (fun e => e.date = d)).Pairwise covLE :=
    List.Pairwise.sublist (List.filter_sublist s) hsort
  refine ⟨a, hsel, hperm.mem_iff.mp hmem1, hmem2, ?_⟩
  intro e2 he2 hd2
  have he2f : e2 ∈ s.filter (fun e => e.date = d) :=
    hfperm.mem_iff.mpr (List.mem_filter.mpr ⟨he2, by simpa using hd2⟩)
  rw [hat] at he2f hpf
  rcases List.mem_cons.mp he2f with rfl | he2t
  · exact le_refl _
  · have hle : covLE a e2 := (List.pairwise_cons.mp hpf).1 e2 he2t
    rcases hle with h1 | ⟨h1, _⟩
    · exact le_of_lt h1
    · exact le_of_eq h1

/-- Closed instance of `select_coverage_dedup_finest`. -/
theorem select_coverage_dedup_finest_witness :
    2 ≤ (([⟨("A"), 1, ("S2"), [], 10, ("sf")⟩, ⟨("B"), 1, ("L8"), [], 20, ("sf")⟩,
          ⟨("C"), 2, ("L8"), [], 20, ("sf")⟩] : List CatalogEntry).filter
            (fun e => e.date = 1)).length ∧
    ∃ e, (select_coverage [⟨("A"), 1, ("S2"), [], 10, ("sf")⟩,
            ⟨("B"), 1, ("L8"), [], 20, ("sf")⟩,
            ⟨("C"), 2, ("L8"), [], 20, ("sf")⟩]).filter (fun e2 => e2.date = 1) = [e] ∧
      e ∈ [⟨("A"), 1, ("S2"), [], 10, ("sf")⟩, ⟨("B"), 1, ("L8"), [], 20, ("sf")⟩,
           ⟨("C"), 2, ("L8"), [], 20, ("sf")⟩] ∧ e.date = 1 ∧
      ∀ e2 ∈ [(⟨("A"), 1, ("S2"), [], 10, ("sf")⟩ : CatalogEntry),
              ⟨("B"), 1, ("L8"), [], 20, ("sf")⟩, ⟨("C"), 2, ("L8"), [], 20, ("sf")⟩],
        e2.date = 1 → e.spatialResolution ≤ e2.spatialResolution :=
  ⟨by decide, select_coverage_dedup_finest _ 1 (by decide)⟩

/-- C2 counterexample: with a finer-resolution record on day 2 and a
coarser-resolution record on day 1, the assembled time coordinate is
`[2, 1]` — the (resolution, date) sort order — which is not strictly
increasing and does not match ascending-date order. -/
theorem time_order_counterexample :
    (get_images_as_dataset ⟨200, some [exC2Late, exC2Early]⟩ exC2Fetch ("NDVI")).map
        (fun ds => ds.time) = .ok [2, 1] ∧
    ¬ List.Pairwise (fun a b => a < b) [2, 1] := by
  constructor
  · decide
  · simp [List.pairwise_cons]

lemma dictUpsert_of_fresh {κ β : Type} [DecidableEq κ] (k : κ) (v : β) :
    ∀ l : List (κ × β), (∀ p ∈ l, p.1 ≠ k) → dictUpsert k v l = l ++ [(k, v)] := by
  intro l
  induction l with
  | nil => intro h; rfl
  | cons p rest ih =>
    intro h
    obtain ⟨k1, v1⟩ := p
    have hne : k1 ≠ k := h (k1, v1) (List.mem_cons_self _ _)
    simp only [dictUpsert, if_neg hne, List.cons_append, List.cons.injEq, true_and]
    exact ih (fun q hq => h q (List.mem_cons_of_mem _ hq))

lemma buildDict_go (indicator : String) (fetch : String → List ZipEntry) :
    ∀ (rows : List CatalogEntry) (acc : List (String × ArchiveData)),
      (rows.map (fun e => e.imageId)).Nodup →
      (∀ p ∈ acc, ∀ e ∈ rows, p.1 ≠ e.imageId) →
      rows.foldl (fun a e => dictUpsert e.imageId (mkArchiveData indicator fetch e) a) acc =
        acc ++ rows.map (fun e => (e.imageId, mkArchiveData indicator fetch e)) := by
  intro rows
  induction rows with
  | nil => intro acc h1 h2; simp
  | cons e rs ih =>
    intro acc h1 h2
    rw [List.map_cons] at h1
    have h3 := List.nodup_cons.mp h1
    have hfresh : ∀ p ∈ acc, p.1 ≠ e.imageId :=
      fun p hp => h2 p hp e (List.mem_cons_self _ _)
    simp only [List.foldl_cons]
    rw [dictUpsert_of_fresh _ _ acc hfresh]
    rw [ih (acc ++ [(e.imageId, mkArchiveData indicator fetch e)]) h3.2 ?_]
    · simp
    · intro p hp e2 he2
      rcases List.mem_append.mp hp with hpa | hpe
      · exact h2 p hpa e2 (List.mem_cons_of_mem _ he2)
      · have hpe2 : p = (e.imageId, mkArchiveData indicator fetch e) := by simpa using hpe
        subst hpe2
        intro hc
        have hc2 : e.imageId = e2.imageId := hc
        exact h3.1 (by rw [hc2]; exact List.mem_map_of_mem (fun e3 => e3.imageId) he2)

lemma buildDict_eq_map (indicator : String) (fetch : String → List ZipEntry)
    (rows : List CatalogEntry) (h : (rows.map (fun e => e.imageId)).Nodup) :
    buildDict indicator fetch rows =
      rows.map (fun e => (e.imageId, mkArchiveData indicator fetch e)) := by
  unfold buildDict
  rw [buildDict_go indicator fetch rows [] h (by simp)]
  simp

lemma process_tif_ref (first : String) (data : ArchiveData)
    (acc : List DataArraySlice × List String) (r : Raster)
    (h1 : r.bands.isEmpty = false) (h2 : data.bands.length = r.bands.length) :
    process_tif first first data acc r =
      .ok (acc.1 ++ [mkSlice data.bands data.date r], acc.2 ++ [r.crs]) := by
  simp [process_tif, h1, h2]

lemma process_tif_other (first imgId : String) (hne : imgId ≠ first)
    (data : ArchiveData) (s0 : DataArraySlice) (pre : List DataArraySlice)
    (cl : List String) (r : Raster)
    (h1 : r.bands.isEmpty = false) (h2 : data.bands.length = r.bands.length) :
    process_tif first imgId data (s0 :: pre, cl) r =
      .ok (s0 :: (pre ++ [interpSlice s0 (mkSlice data.bands data.date r)]),
           cl ++ [r.crs]) := by
  simp [process_tif, h1, h2, hne]

lemma process_archives_append (first : String) (s0 : DataArraySlice) :
    ∀ (items : List (String × ArchiveData)) (pre : List DataArraySlice) (cl : List String),
      (∀ it ∈ items, it.1 ≠ first) →
      (∀ it ∈ items, ∃ r, tifsOf it.2.byteArchive = [r] ∧ r.bands.isEmpty = false ∧
        it.2.bands.length = r.bands.length) →
      process_archives first items (s0 :: pre, cl) =
        .ok (s0 :: (pre ++ items.map (fun it => interpSlice s0
              (mkSlice it.2.bands it.2.date ((tifsOf it.2.byteArchive).headD default)))),
            cl ++ items.map (fun it => ((tifsOf it.2.byteArchive).headD default).crs)) := by
  intro items
  induction items with
  | nil => intro pre cl h1 h2; simp [process_archives]
  | cons it its ih =>
    intro pre cl h1 h2
    obtain ⟨imgId, data⟩ := it
    obtain ⟨r, hr, hb, hlen⟩ := h2 (imgId, data) (List.mem_cons_self _ _)
    have hne : imgId ≠ first := h1 (imgId, data) (List.mem_cons_self _ _)
    simp only [process_archives, hr, process_tifs,
      process_tif_other first imgId hne data s0 pre cl r hb hlen]
    rw [ih (pre ++ [interpSlice s0 (mkSlice data.bands data.date r)]) (cl ++ [r.crs])
      (fun q hq => h1 q (List.mem_cons_of_mem _ hq))
      (fun q hq => h2 q (List.mem_cons_of_mem _ hq))]
    simp [hr]

lemma select_coverage_ne_nil {entries : List CatalogEntry} {e0 : CatalogEntry}
    {rest : List CatalogEntry} (hsel : select_coverage entries = e0 :: rest) :
    entries.isEmpty = false := by
  cases entries with
  | nil => simp [select_coverage, List.insertionSort, dropDuplicatesByDate] at hsel
  | cons a as => rfl

lemma pipeline_ok (indicator : String) (fetch : String → List ZipEntry)
    (entries : List CatalogEntry) (e0 : CatalogEntry) (rest : List CatalogEntry)
    (hsel : select_coverage entries = e0 :: rest)
    (hids : ((e0 :: rest).map (fun e => e.imageId)).Nodup)
    (htifs : ∀ e ∈ e0 :: rest, ∃ r, tifsOf (fetch e.imageId) = [r] ∧
      r.bands.isEmpty = false ∧ (bandsFor indicator e).length = r.bands.length) :
    get_images_as_dataset ⟨200, some entries⟩ fetch indicator =
      .ok (assembledStack indicator fetch (e0 :: rest)) := by
  have hne := select_coverage_ne_nil hsel
  obtain ⟨r0, hr0, hb0, hlen0⟩ := htifs e0 (List.mem_cons_self _ _)
  have h200 : get_satellite_coverage ⟨200, some entries⟩ = .ok (some entries) := rfl
  unfold get_images_as_dataset
  rw [h200]
  simp only [hne, Bool.false_eq_true, if_false]
  rw [hsel, buildDict_eq_map indicator fetch (e0 :: rest) hids]
  simp only [List.map_cons, List.head?_cons, process_archives, mkArchiveData, hr0,
    process_tifs, process_tif_ref e0.imageId
      { byteArchive := fetch e0.imageId, bands := bandsFor indicator e0,
        date := e0.date, sensor := e0.sensor }
      ([], []) r0 hb0 hlen0]
  have hitems1 : ∀ it ∈ rest.map (fun e => (e.imageId,
      ({ byteArchive := fetch e.imageId, bands := bandsFor indicator e,
         date := e.date, sensor := e.sensor } : ArchiveData))), it.1 ≠ e0.imageId := by
    intro it hit
    obtain ⟨e, he, rfl⟩ := List.mem_map.mp hit
    rw [List.map_cons] at hids
    have h3 := List.nodup_cons.mp hids
    intro hc
    have hc2 : e.imageId = e0.imageId := hc
    exact h3.1 (by rw [← hc2]; exact List.mem_map_of_mem (fun e3 => e3.imageId) he)
  have hitems2 : ∀ it ∈ rest.map (fun e => (e.imageId,
      ({ byteArchive := fetch e.imageId, bands := bandsFor indicator e,
         date := e.date, sensor := e.sensor } : ArchiveData))),
      ∃ r, tifsOf it.2.byteArchive = [r] ∧ r.bands.isEmpty = false ∧
        it.2.bands.length = r.bands.length := by
    intro it hit
    obtain ⟨e, he, rfl⟩ := List.mem_map.mp hit
    exact htifs e (List.mem_cons_of_mem _ he)
  rw [List.nil_append, List.nil_append,
    process_archives_append e0.imageId (mkSlice (bandsFor indicator e0) e0.date r0)
      _ [] [r0.crs] hitems1 hitems2]
  simp [assembledStack, concat_slices, hr0, List.map_map, Function.comp_def, Nat.add_comm]

lemma dropDuplicatesByDate_sublist :
    ∀ (xs : List CatalogEntry) (seen : List Nat),
      List.Sublist (dropDuplicatesByDate xs seen) xs := by
  intro xs
  induction xs with
  | nil => intro seen; simp [dropDuplicatesByDate]
  | cons e rest ih =>
    intro seen
    by_cases hm : e.date ∈ seen
    · simp only [dropDuplicatesByDate, if_pos hm]
      exact (ih seen).cons e
    · simp only [dropDuplicatesByDate, if_neg hm]
      exact (ih (e.date :: seen)).cons₂ e

lemma select_coverage_sorted (l : List CatalogEntry) :
    List.Sorted covLE (select_coverage l) :=
  List.Pairwise.sublist (dropDuplicatesByDate_sublist _ []) (List.sorted_insertionSort covLE l)

/-- C2 amended: the time coordinate of a successful assembly equals the dates
of the deduplicated records in the (spatial resolution asc, date asc) sorted
order of `select_coverage` — the records are NOT re-sorted by date before
concatenation, so the time axis is ascending in date only when that order
coincides with date order.  (Hypotheses: one tif per archive with a matching
band count, distinct image ids.) -/
theorem time_follows_resolution_date_order (indicator : String)
    (fetch : String → List ZipEntry) (entries : List CatalogEntry)
    (e0 : CatalogEntry) (rest : List CatalogEntry)
    (hsel : select_coverage entries = e0 :: rest)
    (hids : ((e0 :: rest).map (fun e => e.imageId)).Nodup)
    (htifs : ∀ e ∈ e0 :: rest, ∃ r, tifsOf (fetch e.imageId) = [r] ∧
      r.bands.isEmpty = false ∧ (bandsFor indicator e).length = r.bands.length) :
    ∃ ds, get_images_as_dataset ⟨200, some entries⟩ fetch indicator = .ok ds ∧
      ds.time = (select_coverage entries).map (fun e => e.date) ∧
      List.Sorted covLE (select_coverage entries) := by
  refine ⟨assembledStack indicator fetch (e0 :: rest),
    pipeline_ok indicator fetch entries e0 rest hsel hids htifs, ?_,
    select_coverage_sorted entries⟩
  rw [hsel]
  simp [assembledStack, interpSlice, mkSlice, List.map_map, Function.comp_def]

/-- Closed instance of `time_follows_resolution_date_order`. -/
theorem time_follows_resolution_date_order_witness :
    ∃ ds, get_images_as_dataset ⟨200, some [exC2Late, exC2Early]⟩ exC2Fetch ("NDVI") =
        .ok ds ∧
      ds.time = (select_coverage [exC2Late, exC2Early]).map (fun e => e.date) ∧
      List.Sorted covLE (select_coverage [exC2Late, exC2Early]) :=
  time_follows_resolution_date_order ("NDVI") exC2Fetch [exC2Late, exC2Early]
    exC2Late [exC2Early] (by decide) (by decide)
    (by
      intro e he
      rcases List.mem_cons.mp he with rfl | he2
      · exact ⟨exC2Raster1, by decide, by decide, by decide⟩
      · rcases List.mem_cons.mp he2 with rfl | he3
        · exact ⟨exC2Raster2, by decide, by decide, by decide⟩
        · exact absurd he3 (by simp))

lemma unionAllQ_const (c : List ℚ) (cs : List (List ℚ))
    (h : ∀ v ∈ cs, v = c) : unionAllQ (c :: cs) = c := by
  simp only [unionAllQ]
  rw [if_pos]
  exact List.all_eq_true.mpr (fun v hv => decide_eq_true (h v hv))

lemma unionAllS_const (c : List String) (cs : List (List String))
    (h : ∀ v ∈ cs, v = c) : unionAllS (c :: cs) = c := by
  simp only [unionAllS]
  rw [if_pos]
  exact List.all_eq_true.mpr (fun v hv => decide_eq_true (h v hv))

lemma reindexVals_id (bU : List String) (yU xU : List ℚ) (s : DataArraySlice)
    (h1 : s.band = bU) (h2 : s.y = yU) (h3 : s.x = xU) :
    reindexVals bU yU xU s = s.values := by
  simp [reindexVals, h1, h2, h3]

lemma assembledStack_aligned (indicator : String) (fetch : String → List ZipEntry)
    (e0 : CatalogEntry) (rest : List CatalogEntry) (r0 : Raster)
    (hr0 : tifsOf (fetch e0.imageId) = [r0])
    (hb : ∀ e : CatalogEntry, bandsFor indicator e = [indicator]) :
    (assembledStack indicator fetch (e0 :: rest)).y = (get_coordinates_by_pixel r0).1 ∧
    (assembledStack indicator fetch (e0 :: rest)).x = (get_coordinates_by_pixel r0).2 ∧
    (assembledStack indicator fetch (e0 :: rest)).values =
      r0.bands :: rest.map (fun e =>
        (interpSlice (mkSlice [indicator] e0.date r0)
          (mkSlice [indicator] e.date ((tifsOf (fetch e.imageId)).headD default))).values) := by
  simp only [assembledStack, hr0, List.headD_cons, hb, List.map_cons]
  have hyU : unionAllQ ((mkSlice [indicator] e0.date r0).y ::
      (rest.map (fun e => interpSlice (mkSlice [indicator] e0.date r0)
        (mkSlice [indicator] e.date ((tifsOf (fetch e.imageId)).headD default)))).map
          (fun v => v.y)) = (mkSlice [indicator] e0.date r0).y := by
    apply unionAllQ_const
    intro v hv
    simp only [List.map_map, List.mem_map, Function.comp_def] at hv
    obtain ⟨e, _, rfl⟩ := hv
    rfl
  have hxU : unionAllQ ((mkSlice [indicator] e0.date r0).x ::
      (rest.map (fun e => interpSlice (mkSlice [indicator] e0.date r0)
        (mkSlice [indicator] e.date ((tifsOf (fetch e.imageId)).headD default)))).map
          (fun v => v.x)) = (mkSlice [indicator] e0.date r0).x := by
    apply unionAllQ_const
    intro v hv
    simp only [List.map_map, List.mem_map, Function.comp_def] at hv
    obtain ⟨e, _, rfl⟩ := hv
    rfl
  have hbU : unionAllS ((mkSlice [indicator] e0.date r0).band ::
      (rest.map (fun e => interpSlice (mkSlice [indicator] e0.date r0)
        (mkSlice [indicator] e.date ((tifsOf (fetch e.imageId)).headD default)))).map
          (fun v => v.band)) = (mkSlice [indicator] e0.date r0).band := by
    apply unionAllS_const
    intro v hv
    simp only [List.map_map, List.mem_map, Function.comp_def] at hv
    obtain ⟨e, _, rfl⟩ := hv
    rfl
  refine ⟨by rw [hyU]; rfl, by rw [hxU]; rfl, ?_⟩
  rw [hbU, hyU, hxU]
  simp only [List.map_cons, List.map_map]
  rw [reindexVals_id _ _ _ _ rfl rfl rfl]
  refine congrArg (fun v => (mkSlice [indicator] e0.date r0).values :: v) ?_
  apply List.map_congr_left
  intro e he
  exact reindexVals_id _ _ _ _ rfl rfl rfl

/-- C1 amended: provided every deduplicated record's archive contributes
exactly ONE tif (with a matching band count and distinct image ids, for a
single-band indicator), the grid-alignment invariant holds as claimed: the
stack's `y`/`x` coordinates are exactly the pixel coordinates of the first
(reference) record's raster, the reference slice's pixel values are adopted
verbatim, and every other record's bands are resampled onto the reference
coordinates by linear interpolation (`interpSlice`, i.e. per-cell
`bilinear`) before concatenation.  When the reference archive holds several
tifs on different grids the invariant fails (see the counterexample). -/
theorem grid_alignment_of_single_tif_archives (indicator : String)
    (fetch : String → List ZipEntry) (entries : List CatalogEntry)
    (e0 : CatalogEntry) (rest : List CatalogEntry) (r0 : Raster)
    (hsel : select_coverage entries = e0 :: rest)
    (hids : ((e0 :: rest).map (fun e => e.imageId)).Nodup)
    (htifs : ∀ e ∈ e0 :: rest, ∃ r, tifsOf (fetch e.imageId) = [r] ∧
      r.bands.isEmpty = false ∧ (bandsFor indicator e).length = r.bands.length)
    (hr0 : tifsOf (fetch e0.imageId) = [r0])
    (hind : pyUpper indicator ≠ ("REFLECTANCE")) :
    ∃ ds, get_images_as_dataset ⟨200, some entries⟩ fetch indicator = .ok ds ∧
      ds.y = (get_coordinates_by_pixel r0).1 ∧
      ds.x = (get_coordinates_by_pixel r0).2 ∧
      ds.values = r0.bands :: rest.map (fun e =>
        (interpSlice (mkSlice [indicator] e0.date r0)
          (mkSlice [indicator] e.date ((tifsOf (fetch e.imageId)).headD default))).values) := by
  have hb : ∀ e : CatalogEntry, bandsFor indicator e = [indicator] := by
    intro e
    simp [bandsFor, hind]
  obtain ⟨hy, hx, hv⟩ := assembledStack_aligned indicator fetch e0 rest r0 hr0 hb
  exact ⟨assembledStack indicator fetch (e0 :: rest),
    pipeline_ok indicator fetch entries e0 rest hsel hids htifs, hy, hx, hv⟩

/-- Closed instance of `grid_alignment_of_single_tif_archives`. -/
theorem grid_alignment_of_single_tif_archives_witness :
    ∃ ds, get_images_as_dataset ⟨200, some [exC2Late, exC2Early]⟩ exC2Fetch ("NDVI2") =
        .ok ds ∧
      ds.y = (get_coordinates_by_pixel exC2Raster1).1 ∧
      ds.x = (get_coordinates_by_pixel exC2Raster1).2 ∧
      ds.values = exC2Raster1.bands :: [exC2Early].map (fun e =>
        (interpSlice (mkSlice [("NDVI2")] exC2Late.date exC2Raster1)
          (mkSlice [("NDVI2")] e.date ((tifsOf (exC2Fetch e.imageId)).headD default))).values) :=
  grid_alignment_of_single_tif_archives ("NDVI2") exC2Fetch [exC2Late, exC2Early]
    exC2Late [exC2Early] exC2Raster1 (by decide) (by decide)
    (by
      intro e he
      rcases List.mem_cons.mp he with rfl | he2
      · exact ⟨exC2Raster1, by decide, by decide, by decide⟩
      · rcases List.mem_cons.mp he2 with rfl | he3
        · exact ⟨exC2Raster2, by decide, by decide, by decide⟩
        · exact absurd he3 (by simp))
    (by decide) (by decide)

/-- C1 counterexample: when the reference record's archive contains two tif
files on different grids (second record's archive contributing none, so that
the pandas length check passes), neither of the reference tifs is resampled
and the stack's `x` coordinates are the aligned union of the two grids — not
the first record's pixel coordinates adopted verbatim. -/
theorem grid_alignment_counterexample :
    (get_images_as_dataset ⟨200, some [exC1Ref, exC1Other]⟩ exC1Fetch ("NDVI")).map
        (fun ds => ds.x) = .ok [mkRat 1 2, mkRat 3 2, mkRat 21 2, mkRat 23 2] ∧
    (get_coordinates_by_pixel exC1RasterA).2 = [mkRat 1 2, mkRat 3 2] ∧
    ([mkRat 1 2, mkRat 3 2, mkRat 21 2, mkRat 23 2] : List ℚ) ≠ [mkRat 1 2, mkRat 3 2] := by
  refine ⟨by decide, by decide, by decide⟩

lemma process_tif_ok_shape (first imgId : String) (data : ArchiveData)
    (acc acc1 : List DataArraySlice × List String) (r : Raster)
    (h : process_tif first imgId data acc r = .ok acc1) :
    acc1.1.map (fun v => v.time) = acc.1.map (fun v => v.time) ++ [data.date] ∧
    acc1.2.length = acc.2.length + 1 := by
  simp only [process_tif] at h
  split at h
  · exact absurd h (by simp)
  · split at h
    · exact absurd h (by simp)
    · split at h
      · cases h
        simp [mkSlice]
      · split at h
        · exact absurd h (by simp)
        · cases h
          simp [interpSlice, mkSlice]

lemma process_tifs_ok_shape (first imgId : String) (data : ArchiveData) :
    ∀ (rs : List Raster) (acc acc2 : List DataArraySlice × List String),
      process_tifs first imgId data rs acc = .ok acc2 →
      acc2.1.map (fun v => v.time) =
        acc.1.map (fun v => v.time) ++ rs.map (fun _ => data.date) ∧
      acc2.2.length = acc.2.length + rs.length := by
  intro rs
  induction rs with
  | nil =>
    intro acc acc2 h
    cases h
    simp
  | cons r rs2 ih =>
    intro acc acc2 h
    simp only [process_tifs] at h
    cases hp : process_tif first imgId data acc r with
    | error e => rw [hp] at h; exact absurd h (by simp)
    | ok acc1 =>
      rw [hp] at h
      obtain ⟨ht1, hl1⟩ := process_tif_ok_shape first imgId data acc acc1 r hp
      obtain ⟨ht2, hl2⟩ := ih acc1 acc2 h
      constructor
      · rw [ht2, ht1]
        simp
      · rw [hl2, hl1]
        simp
        omega

lemma process_archives_ok_shape (first : String) :
    ∀ (items : List (String × ArchiveData)) (acc acc2 : List DataArraySlice × List String),
      process_archives first items acc = .ok acc2 →
      acc2.1.map (fun v => v.time) = acc.1.map (fun v => v.time) ++
        items.flatMap (fun it => (tifsOf it.2.byteArchive).map (fun _ => it.2.date)) ∧
      acc2.2.length = acc.2.length +
        (items.map (fun it => (tifsOf it.2.byteArchive).length)).sum := by
  intro items
  induction items with
  | nil =>
    intro acc acc2 h
    cases h
    simp
  | cons it its ih =>
    intro acc acc2 h
    obtain ⟨imgId, data⟩ := it
    simp only [process_archives] at h
    cases hp : process_tifs first imgId data (tifsOf data.byteArchive) acc with
    | error e => rw [hp] at h; exact absurd h (by simp)
    | ok acc1 =>
      rw [hp] at h
      obtain ⟨ht1, hl1⟩ := process_tifs_ok_shape first imgId data _ acc acc1 hp
      obtain ⟨ht2, hl2⟩ := ih acc1 acc2 h
      constructor
      · rw [ht2, ht1]
        simp
      · rw [hl2, hl1]
        simp [Nat.add_assoc]

lemma concat_slices_time (sl : List DataArraySlice) (pre : PreStack)
    (h : concat_slices sl = .ok pre) : pre.time = sl.map (fun v => v.time) := by
  cases sl with
  | nil => exact absurd h (by simp [concat_slices])
  | cons s ss =>
    simp only [concat_slices] at h
    cases h
    rfl

/-- C10: (i) on a successful assembly every extracted `.tif` file becomes
its own time slice carrying its record's date (the time coordinate is the
per-archive repetition of the dict entries' dates); (ii) whenever the total
number of extracted tifs differs from the number of deduplicated records the
assembly raises an exception instead of returning a dataset; (iii) when the
counts coincide only by accident (first archive: two tifs, second archive:
none) the assembly succeeds but the per-time `crs`/metadata values are
positionally misaligned: both slices come from image I1 on date 1, yet the
second slot carries image I2's identity while I2's date 2 never appears. -/
theorem tif_record_count_alignment :
    (∀ (entries : List CatalogEntry) (fetch : String → List ZipEntry)
        (indicator : String) (ds : TimeStack),
      get_images_as_dataset ⟨200, some entries⟩ fetch indicator = .ok ds →
      ds.time = (buildDict indicator fetch (select_coverage entries)).flatMap
        (fun it => (tifsOf it.2.byteArchive).map (fun _ => it.2.date))) ∧
    (∀ (entries : List CatalogEntry) (fetch : String → List ZipEntry)
        (indicator : String),
      entries.isEmpty = false →
      (tifCounts indicator fetch (select_coverage entries)).sum ≠
        (select_coverage entries).length →
      ∃ e, get_images_as_dataset ⟨200, some entries⟩ fetch indicator = .error e) ∧
    ((get_images_as_dataset ⟨200, some [exC10First, exC10Second]⟩ exC10Fetch
        ("NDVI")).map (fun ds => (ds.time, ds.crs, ds.imageIds)) =
      .ok ([1, 1], ["EPSG:A", "EPSG:B"], ["I1", "I2"]) ∧
      (select_coverage [exC10First, exC10Second]).map (fun e => e.date) = [1, 2]) := by
  refine ⟨?_, ?_, by decide, by decide⟩
  · intro entries fetch indicator ds h
    unfold get_images_as_dataset at h
    rw [show get_satellite_coverage ⟨200, some entries⟩ = .ok (some entries) from rfl] at h
    by_cases hne : entries.isEmpty = true
    · have he : entries = [] := List.isEmpty_iff.mp hne
      subst he
      simp only [List.isEmpty_nil, if_true] at h
      have hds : emptyDataset = ds := by
        simpa using h
      subst hds
      rfl
    · rw [Bool.not_eq_true] at hne
      simp only [hne, Bool.false_eq_true, if_false] at h
      cases hhead : (select_coverage entries).head? with
      | none => rw [hhead] at h; exact absurd h (by simp)
      | some e0 =>
        rw [hhead] at h
        dsimp only [] at h
        cases hproc : process_archives e0.imageId
            (buildDict indicator fetch (select_coverage entries)) ([], []) with
        | error e => rw [hproc] at h; exact absurd h (by simp)
        | ok acc =>
          rw [hproc] at h
          obtain ⟨sl, cl⟩ := acc
          obtain ⟨ht, _⟩ := process_archives_ok_shape e0.imageId
            (buildDict indicator fetch (select_coverage entries)) ([], []) (sl, cl) hproc
          by_cases hlen : cl.length = (select_coverage entries).length
          · simp only [hlen, if_true] at h
            cases hcat : concat_slices sl with
            | error e => rw [hcat] at h; exact absurd h (by simp)
            | ok pre =>
              rw [hcat] at h
              have hds : ds.time = pre.time := by
                cases h
                rfl
              rw [hds, concat_slices_time sl pre hcat]
              simpa using ht
          · simp only [hlen, if_false] at h
            exact absurd h (by simp)
  · intro entries fetch indicator hne hcount
    unfold get_images_as_dataset
    rw [show get_satellite_coverage ⟨200, some entries⟩ = .ok (some entries) from rfl]
    simp only [hne, Bool.false_eq_true, if_false]
    cases hhead : (select_coverage entries).head? with
    | none =>
      exact ⟨.indexError, rfl⟩
    | some e0 =>
      dsimp only []
      cases hproc : process_archives e0.imageId
          (buildDict indicator fetch (select_coverage entries)) ([], []) with
      | error e =>
        exact ⟨e, rfl⟩
      | ok acc =>
        obtain ⟨sl, cl⟩ := acc
        obtain ⟨_, hl⟩ := process_archives_ok_shape e0.imageId
          (buildDict indicator fetch (select_coverage entries)) ([], []) (sl, cl) hproc
        have hlen : cl.length ≠ (select_coverage entries).length := by
          rw [hl]
          simpa [tifCounts] using hcount
        simp only [hlen, if_false]
        exact ⟨.lengthMismatchError, rfl⟩

/-- Closed instance of `tif_record_count_alignment`: one deduplicated record
whose archive contains two tifs (2 ≠ 1) makes the assembly raise. -/
theorem tif_record_count_alignment_witness :
    ([exC10First] : List CatalogEntry).isEmpty = false ∧
    (tifCounts ("NDVI") exC10Fetch (select_coverage [exC10First])).sum ≠
      (select_coverage [exC10First]).length ∧
    ∃ e, get_images_as_dataset ⟨200, some [exC10First]⟩ exC10Fetch ("NDVI") = .error e :=
  ⟨rfl, by decide,
   tif_record_count_alignment.2.1 [exC10First] exC10Fetch ("NDVI") rfl (by decide)⟩

lemma findCell_below (c0 : ℚ) (cs : List ℚ) (t : ℚ) (h : t < c0) :
    findCell (c0 :: cs) t = none := by
  cases cs with
  | nil => simp [findCell, ne_of_lt h]
  | cons c1 rest => simp [findCell, h]

lemma findCell_above :
    ∀ (cs : List ℚ) (t : ℚ), (∀ c ∈ cs, c < t) → findCell cs t = none := by
  intro cs
  induction cs with
  | nil => intro t h; rfl
  | cons c0 rest ih =>
    intro t h
    have h0 : c0 < t := h c0 (List.mem_cons_self _ _)
    cases rest with
    | nil => simp [findCell, (ne_of_gt h0)]
    | cons c1 rest2 =>
      have h1 : c1 < t := h c1 (by simp)
      simp only [findCell, if_neg (not_lt.mpr (le_of_lt h0)), if_neg (not_le.mpr h1)]
      rw [ih t (fun c hc => h c (List.mem_cons_of_mem _ hc))]
      rfl

lemma bilinear_none_y (ys xs : List ℚ) (g : List (List (Option ℚ))) (ty tx : ℚ)
    (h : findCell ys ty = none) : bilinear ys xs g ty tx = none := by
  simp [bilinear, h]

lemma bilinear_none_x (ys xs : List ℚ) (g : List (List (Option ℚ))) (ty tx : ℚ)
    (h : findCell xs tx = none) : bilinear ys xs g ty tx = none := by
  cases hy : findCell ys ty <;> simp [bilinear, h, hy]

lemma bilinear_some_inv (ys xs : List ℚ) (g : List (List (Option ℚ)))
    (ty tx : ℚ) (v : ℚ) (h : bilinear ys xs g ty tx = some v) :
    ∃ i wy j wx v00 v01 v10 v11,
      findCell ys ty = some (i, wy) ∧ findCell xs tx = some (j, wx) ∧
      getPixel g i j = some v00 ∧ getPixel g i (j + 1) = some v01 ∧
      getPixel g (i + 1) j = some v10 ∧ getPixel g (i + 1) (j + 1) = some v11 ∧
      v = qAdd (qMul (qSub 1 wy) (qAdd (qMul (qSub 1 wx) v00) (qMul wx v01)))
            (qMul wy (qAdd (qMul (qSub 1 wx) v10) (qMul wx v11))) := by
  unfold bilinear at h
  cases hy : findCell ys ty with
  | none => rw [hy] at h; exact absurd h (by simp)
  | some ic =>
    rw [hy] at h
    cases hx : findCell xs tx with
    | none => rw [hx] at h; exact absurd h (by simp)
    | some jc =>
      rw [hx] at h
      dsimp only [] at h
      cases h00 : getPixel g ic.1 jc.1 with
      | none => rw [h00] at h; exact absurd h (by simp)
      | some v00 =>
        rw [h00] at h
        cases h01 : getPixel g ic.1 (jc.1 + 1) with
        | none => rw [h01] at h; exact absurd h (by simp)
        | some v01 =>
          rw [h01] at h
          cases h10 : getPixel g (ic.1 + 1) jc.1 with
          | none => rw [h10] at h; exact absurd h (by simp)
          | some v10 =>
            rw [h10] at h
            cases h11 : getPixel g (ic.1 + 1) (jc.1 + 1) with
            | none => rw [h11] at h; exact absurd h (by simp)
            | some v11 =>
              rw [h11] at h
              refine ⟨ic.1, ic.2, jc.1, jc.2, v00, v01, v10, v11,
                rfl, rfl, h00, h01, h10, h11, ?_⟩
              have hv : some (qAdd
                  (qMul (qSub 1 ic.2) (qAdd (qMul (qSub 1 jc.2) v00) (qMul jc.2 v01)))
                  (qMul ic.2 (qAdd (qMul (qSub 1 jc.2) v10) (qMul jc.2 v11)))) = some v := h
              exact (Option.some_inj.mp hv).symm

/-- C5: numeric semantics of the resampling step.  (i) `interpSlice` (the
model of `xarr.interp(x=..., y=..., method="linear")`) computes every output
pixel by `bilinear` on the slice's native grid; (ii) the DataArray of a
raster carries the masked pixels verbatim (`none`, never zero); (iii, iv) a
target coordinate below the first or above every native coordinate has no
containing cell, so the resampled value is missing — extrapolation is never
performed (likewise on the x axis); (v) a value is produced ONLY when the
four corners of the containing cell are all unmasked, and then it is exactly
the bilinear (linear in each axis) weighted average — masked pixels
propagate as missing, never as zero. -/
theorem resampling_missing_value_semantics :
    (∀ (ref s : DataArraySlice), (interpSlice ref s).values =
      s.values.map (fun g => ref.y.map (fun ty => ref.x.map
        (fun tx => bilinear s.y s.x g ty tx)))) ∧
    (∀ (bands : List String) (date : Nat) (r : Raster),
      (mkSlice bands date r).values = r.bands) ∧
    (∀ (c0 : ℚ) (cs xs : List ℚ) (g : List (List (Option ℚ))) (ty tx : ℚ),
      ty < c0 → bilinear (c0 :: cs) xs g ty tx = none) ∧
    (∀ (ys xs : List ℚ) (g : List (List (Option ℚ))) (ty tx : ℚ),
      (∀ c ∈ ys, c < ty) → bilinear ys xs g ty tx = none) ∧
    (∀ (ys : List ℚ) (c0 : ℚ) (cs : List ℚ) (g : List (List (Option ℚ))) (ty tx : ℚ),
      tx < c0 ∨ (∀ c ∈ c0 :: cs, c < tx) → bilinear ys (c0 :: cs) g ty tx = none) ∧
    (∀ (ys xs : List ℚ) (g : List (List (Option ℚ))) (ty tx : ℚ) (v : ℚ),
      bilinear ys xs g ty tx = some v →
      ∃ i wy j wx v00 v01 v10 v11,
        findCell ys ty = some (i, wy) ∧ findCell xs tx = some (j, wx) ∧
        getPixel g i j = some v00 ∧ getPixel g i (j + 1) = some v01 ∧
        getPixel g (i + 1) j = some v10 ∧ getPixel g (i + 1) (j + 1) = some v11 ∧
        v = qAdd (qMul (qSub 1 wy) (qAdd (qMul (qSub 1 wx) v00) (qMul wx v01)))
              (qMul wy (qAdd (qMul (qSub 1 wx) v10) (qMul wx v11)))) := by
  refine ⟨fun ref s => rfl, fun bands date r => rfl, ?_, ?_, ?_, bilinear_some_inv⟩
  · intro c0 cs xs g ty tx h
    exact bilinear_none_y _ _ _ _ _ (findCell_below c0 cs ty h)
  · intro ys xs g ty tx h
    exact bilinear_none_y _ _ _ _ _ (findCell_above ys ty h)
  · intro ys c0 cs g ty tx h
    rcases h with h | h
    · exact bilinear_none_x _ _ _ _ _ (findCell_below c0 cs tx h)
    · exact bilinear_none_x _ _ _ _ _ (findCell_above (c0 :: cs) tx h)

/-- Closed instance of `resampling_missing_value_semantics`: a target below
the native y range yields a missing value on an all-valid grid. -/
theorem resampling_missing_value_semantics_witness :
    (mkRat (-1) 1 : ℚ) < mkRat 1 2 ∧
    bilinear [mkRat 1 2, mkRat 3 2] [mkRat 1 2, mkRat 3 2]
      [[some 1, some 2], [some 3, some 4]] (mkRat (-1) 1) (mkRat 1 2) = none :=
  ⟨by decide,
   resampling_missing_value_semantics.2.2.1 (mkRat 1 2) [mkRat 3 2]
     [mkRat 1 2, mkRat 3 2] [[some 1, some 2], [some 3, some 4]]
     (mkRat (-1) 1) (mkRat 1 2) (by decide)⟩
